import Mathlib

/-!
Shallow embedding of the magic-link authentication subsystem of the
fullstack-vps-boilerplate repository, together with theorems settling the
spec claims about it.

The embedded code lives in:
  - apps/backend/src/services/token.service.ts   (TokenService)
  - apps/backend/src/services/auth.service.ts    (AuthService)
  - apps/backend/src/trpc/routers/admin.router.ts (adminRouter)

Timestamps are modelled as natural numbers (milliseconds). Each service
method that calls Date.now / new Date takes the current time as an explicit
`now` parameter. The jsonwebtoken library is modelled abstractly: a signed
token is a structure carrying its payload, the signing key, and its expiry;
jwt.verify succeeds exactly on a well-signed unexpired token. The database
(Prisma over PostgreSQL) is modelled as lists of rows with an explicit
store threaded through each operation; prisma.<table>.findUnique /
create / update / delete / deleteMany become list operations.
-/

deriving instance DecidableEq for Except

namespace Boilerplate

/-- User role enum from the Prisma schema (USER is the default). -/
inductive Role
  | USER
  | ADMIN
deriving DecidableEq, Repr

/-- JWT payload bodies: AccessTokenPayload carries userId, email, role and
the discriminator tag "access"; RefreshTokenPayload carries only userId and
the tag "refresh" (token.service.ts lines 6-16). The constructor itself
plays the role of the `type` discriminator field. -/
inductive Payload
  | access (userId : Nat) (email : String) (role : Role)
  | refresh (userId : Nat)
deriving DecidableEq, Repr

/-- Return true exactly when the payload's discriminator tag is "access". -/
def Payload.isAccessType : Payload → Bool
  | .access .. => true
  | .refresh _ => false

/-- Return true exactly when the payload's discriminator tag is "refresh". -/
def Payload.isRefreshType : Payload → Bool
  | .access .. => false
  | .refresh _ => true

/-- A signed JWT, modelled abstractly: the payload, the key it was signed
with, and the absolute expiry timestamp baked in by jwt.sign's expiresIn. -/
structure Jwt where
  payload : Payload
  key : String
  exp : Nat
deriving DecidableEq, Repr

/-- An arbitrary input string presented to a verify function: either a
string that does not parse as a signed token at all, or a signed token. -/
inductive TokenInput
  | malformed (s : String)
  | signed (j : Jwt)
deriving DecidableEq, Repr

/-- Configuration values from config/env.ts used by the token service. -/
structure Config where
  jwtSecret : String
  jwtRefreshSecret : String
  jwtAccessExpiryMs : Nat
  jwtRefreshExpiryMs : Nat
  magicLinkExpiryMinutes : Nat
deriving Repr

/-- Model of jwt.verify from the jsonwebtoken library: returns the payload
iff the input parses as a signed token, was signed with the given key, and
is unexpired (valid iff now < exp per RFC 7519); otherwise jwt.verify
throws, which the callers in token.service.ts catch — modelled here as
`none`. -/
def jwtVerify : TokenInput → String → Nat → Option Payload
  | .malformed _, _, _ => none
  | .signed j, key, now =>
      if j.key = key ∧ now < j.exp then some j.payload else none

/-- TokenService.generateAccessToken: signs an access payload with
JWT_SECRET and access-token lifetime. -/
def generateAccessToken (cfg : Config) (userId : Nat) (email : String)
    (role : Role) (now : Nat) : Jwt :=
  ⟨.access userId email role, cfg.jwtSecret, now + cfg.jwtAccessExpiryMs⟩

/-- TokenService.generateRefreshToken: signs a refresh payload with
JWT_REFRESH_SECRET and refresh-token lifetime. -/
def generateRefreshToken (cfg : Config) (userId : Nat) (now : Nat) : Jwt :=
  ⟨.refresh userId, cfg.jwtRefreshSecret, now + cfg.jwtRefreshExpiryMs⟩

/-- TokenService.verifyAccessToken (token.service.ts lines 55-63): verify
with JWT_SECRET inside try/catch (catch returns null), then return null
unless the payload's discriminator tag is "access". -/
def verifyAccessToken (cfg : Config) (t : TokenInput) (now : Nat) :
    Option Payload :=
  match jwtVerify t cfg.jwtSecret now with
  | none => none
  | some p => if p.isAccessType then some p else none

/-- TokenService.verifyRefreshToken (token.service.ts lines 66-77): verify
with JWT_REFRESH_SECRET inside try/catch (catch returns null), then return
null unless the payload's discriminator tag is "refresh". -/
def verifyRefreshToken (cfg : Config) (t : TokenInput) (now : Nat) :
    Option Payload :=
  match jwtVerify t cfg.jwtRefreshSecret now with
  | none => none
  | some p => if p.isRefreshType then some p else none

/-- TokenService.getMagicLinkExpiry: now + MAGIC_LINK_EXPIRY_MINUTES
minutes. -/
def getMagicLinkExpiry (cfg : Config) (now : Nat) : Nat :=
  now + cfg.magicLinkExpiryMinutes * 60 * 1000

/-- TokenService.getRefreshTokenExpiry: now + 7 days, hardcoded in
token.service.ts line 86. -/
def getRefreshTokenExpiry (now : Nat) : Nat :=
  now + 7 * 24 * 60 * 60 * 1000

/-- A row of the User table (docs/DATABASE.md Prisma schema: id, email
unique, role default USER, isActive default true, lastLoginAt nullable). -/
structure UserRow where
  id : Nat
  email : String
  role : Role
  isActive : Bool
  lastLoginAt : Option Nat
  createdAt : Nat
deriving DecidableEq, Repr

/-- A row of the MagicLink table: unique token, target email, expiry,
consumed timestamp (usedAt, nullable), optional back-reference userId. -/
structure MagicLinkRow where
  id : Nat
  token : String
  email : String
  expiresAt : Nat
  usedAt : Option Nat
  userId : Option Nat
deriving DecidableEq, Repr

/-- A row of the Session table: owning userId, unique refresh credential,
expiry. The credential is stored as the signed token it was minted as. -/
structure SessionRow where
  id : Nat
  userId : Nat
  refreshToken : Jwt
  expiresAt : Nat
deriving DecidableEq, Repr

/-- The database state: the three tables plus a counter supplying the fresh
ids that Prisma's cuid() default would generate. -/
structure Store where
  users : List UserRow
  magicLinks : List MagicLinkRow
  sessions : List SessionRow
  nextId : Nat
deriving DecidableEq, Repr

/-- Errors thrown by the embedded services, one constructor per distinct
TRPCError site (spec taxonomy name first, TRPC code and message second):
  notFound            NOT_FOUND "Invalid or expired magic link"
  expired             BAD_REQUEST "Magic link has expired"
  alreadyUsed         BAD_REQUEST "Magic link has already been used"
  accountDeactivated  FORBIDDEN "Your account has been deactivated"
  invalidCredential   UNAUTHORIZED "Invalid refresh token"
  sessionNotFound     UNAUTHORIZED "Session not found"
  sessionExpired      UNAUTHORIZED "Session expired"
  selfActionDenied    BAD_REQUEST "You cannot change/deactivate/delete your own ..."
  userNotFound        NOT_FOUND "User not found" (and Prisma P2025 on update/delete)
  uniqueViolation     Prisma P2002 unique-constraint error, uncaught. -/
inductive AuthError
  | notFound
  | expired
  | alreadyUsed
  | accountDeactivated
  | invalidCredential
  | sessionNotFound
  | sessionExpired
  | selfActionDenied
  | userNotFound
  | uniqueViolation
deriving DecidableEq, Repr

/-- The value returned by AuthService.verifyMagicLink on success: the token
pair plus the user summary fields. -/
structure AuthResult where
  accessToken : Jwt
  refreshToken : Jwt
  userId : Nat
  userEmail : String
  userRole : Role
  userIsActive : Bool
  userCreatedAt : Nat
deriving DecidableEq, Repr

/-- The anti-enumeration response literal of AuthService.requestMagicLink
(auth.service.ts lines 37 and 43 — identical in the success path and in the
catch handler). -/
def magicLinkResponseMsg : String :=
  "If an account exists, a magic link has been sent to your email."

/-- AuthService.requestMagicLink (auth.service.ts lines 9-46): look up an
existing user by email, insert a MagicLink row whose userId is the found
user's id (or null), then attempt out-of-band delivery. A delivery failure
throws inside the try block and is caught; the catch handler returns the
same literal message, and the already-committed MagicLink insert stands.
`freshToken` stands for tokenService.generateMagicLinkToken()'s random
output, `deliveryOk` for the outcome of emailService.sendMagicLinkEmail. -/
def requestMagicLink (cfg : Config) (s : Store) (email : String)
    (freshToken : String) (deliveryOk : Bool) (now : Nat) : Store × String :=
  let existing := s.users.find? (fun u => u.email = email)
  let ml : MagicLinkRow :=
    ⟨s.nextId, freshToken, email, getMagicLinkExpiry cfg now, none,
      existing.map (fun u => u.id)⟩
  let s1 : Store := { s with magicLinks := s.magicLinks ++ [ml],
                             nextId := s.nextId + 1 }
  if deliveryOk then (s1, magicLinkResponseMsg) else (s1, magicLinkResponseMsg)

/-- The database read that opens AuthService.verifyMagicLink:
prisma.magicLink.findUnique({ where: { token }, include: { user: true } }).
Returns the link row together with the included user row (none when the
link's userId is null). -/
def findMagicLink (s : Store) (token : String) :
    Option (MagicLinkRow × Option UserRow) :=
  (s.magicLinks.find? (fun m => m.token = token)).map
    (fun ml => (ml, ml.userId.bind (fun uid => s.users.find? (fun u => u.id = uid))))

/-- Tail of AuthService.verifyMagicLink after the user is resolved
(auth.service.ts lines 99-143): reject an inactive user, else mark the link
consumed and bind the user id, mint the token pair, insert the Session row,
and set the user's lastLoginAt. -/
def redeemWithUser (cfg : Config) (s : Store) (ml : MagicLinkRow)
    (user : UserRow) (now : Nat) : Store × Except AuthError AuthResult :=
  if !user.isActive then (s, .error .accountDeactivated)
  else
    let marked := s.magicLinks.map (fun m =>
      if m.id = ml.id then { m with usedAt := some now, userId := some user.id } else m)
    let s1 : Store := { s with magicLinks := marked }
    let access := generateAccessToken cfg user.id user.email user.role now
    let refresh := generateRefreshToken cfg user.id now
    let sess : SessionRow := ⟨s1.nextId, user.id, refresh, getRefreshTokenExpiry now⟩
    let s2 : Store := { s1 with sessions := s1.sessions ++ [sess],
                                nextId := s1.nextId + 1 }
    let touched := s2.users.map (fun u =>
      if u.id = user.id then { u with lastLoginAt := some now } else u)
    let s3 : Store := { s2 with users := touched }
    (s3, .ok ⟨access, refresh, user.id, user.email, user.role,
              user.isActive, user.createdAt⟩)

/-- The fresh-account path of AuthService.verifyMagicLink (auth.service.ts
lines 91-97, taken when the link's back-reference is null):
prisma.user.create with the link's email and the schema defaults (role
USER, isActive true), then the rest of the redemption. The create enforces
the unique constraint on email (modelled from the spec: the Prisma schema
file is not under src/; docs/DATABASE.md and the spec state the contact
address is globally unique, so a duplicate insert throws P2002, surfaced
here as uniqueViolation and left uncaught by the service). -/
def redeemCreate (cfg : Config) (s : Store) (ml : MagicLinkRow) (now : Nat) :
    Store × Except AuthError AuthResult :=
  if (s.users.find? (fun u => u.email = ml.email)).isSome then
    (s, .error .uniqueViolation)
  else
    let user : UserRow := ⟨s.nextId, ml.email, .USER, true, none, now⟩
    let s1 : Store := { s with users := s.users ++ [user],
                               nextId := s.nextId + 1 }
    redeemWithUser cfg s1 ml user now

/-- Body of AuthService.verifyMagicLink after the opening findUnique
(auth.service.ts lines 73-143), operating on the fetched snapshot
`(ml, linkUser)`: check expiry (strict <), check usedAt, then resolve the
user from the link's back-reference (redeemWithUser) or create a fresh one
(redeemCreate). -/
def redeemRest (cfg : Config) (s : Store) (ml : MagicLinkRow)
    (linkUser : Option UserRow) (now : Nat) :
    Store × Except AuthError AuthResult :=
  if ml.expiresAt < now then (s, .error .expired)
  else if ml.usedAt.isSome then (s, .error .alreadyUsed)
  else
    match linkUser with
    | some user => redeemWithUser cfg s ml user now
    | none => redeemCreate cfg s ml now

/-- AuthService.verifyMagicLink (auth.service.ts lines 49-144): fetch the
link (with its user) by token, fail with notFound when absent, else run the
rest of the redemption on the fetched snapshot. -/
def verifyMagicLink (cfg : Config) (s : Store) (token : String) (now : Nat) :
    Store × Except AuthError AuthResult :=
  match findMagicLink s token with
  | none => (s, .error .notFound)
  | some (ml, linkUser) => redeemRest cfg s ml linkUser now

/-- Tail of AuthService.refreshToken once the session's owner is resolved
(auth.service.ts lines 182-206): reject an inactive owner, else mint a new
pair via generateTokenPair and rotate the existing Session row in place
(same id, new credential, new expiry). -/
def mintRotate (cfg : Config) (s : Store) (sess : SessionRow)
    (user : UserRow) (now : Nat) : Store × Except AuthError (Jwt × Jwt) :=
  if !user.isActive then (s, .error .accountDeactivated)
  else
    let access := generateAccessToken cfg user.id user.email user.role now
    let refresh := generateRefreshToken cfg user.id now
    let rotated := s.sessions.map (fun x =>
      if x.id = sess.id then
        { x with refreshToken := refresh, expiresAt := getRefreshTokenExpiry now }
      else x)
    let s1 : Store := { s with sessions := rotated }
    (s1, .ok (access, refresh))

/-- Middle of AuthService.refreshToken once the Session row is found
(auth.service.ts lines 173-188): delete an expired session and fail, else
resolve the owner included with the row (the foreign key makes it present;
its absence is modelled as userNotFound) and continue with mintRotate. -/
def rotateSession (cfg : Config) (s : Store) (sess : SessionRow) (now : Nat) :
    Store × Except AuthError (Jwt × Jwt) :=
  if sess.expiresAt < now then
    ({ s with sessions := s.sessions.filter (fun x => x.id ≠ sess.id) },
     .error .sessionExpired)
  else
    match s.users.find? (fun u => u.id = sess.userId) with
    | none => (s, .error .userNotFound)
    | some user => mintRotate cfg s sess user now

/-- AuthService.refreshToken (auth.service.ts lines 147-207): verify the
refresh JWT, look up the Session row holding that credential, then rotate
via rotateSession. -/
def refreshTokenOp (cfg : Config) (s : Store) (t : TokenInput) (now : Nat) :
    Store × Except AuthError (Jwt × Jwt) :=
  match verifyRefreshToken cfg t now with
  | none => (s, .error .invalidCredential)
  | some _ =>
    match s.sessions.find? (fun sess => TokenInput.signed sess.refreshToken = t) with
    | none => (s, .error .sessionNotFound)
    | some sess => rotateSession cfg s sess now

/-- Iterated refresh: perform one refreshTokenOp per timestamp in `times`,
feeding each rotation's new refresh credential into the next call; `none`
when any call in the sequence fails. -/
def refreshSeq (cfg : Config) : Store → TokenInput → List Nat →
    Option (Store × TokenInput)
  | s, t, [] => some (s, t)
  | s, t, now :: rest =>
    match refreshTokenOp cfg s t now with
    | (s1, .ok pair) => refreshSeq cfg s1 (.signed pair.2) rest
    | (_, .error _) => none

/-- adminRouter.updateUserRole (admin.router.ts lines 89-116): the caller
(an authenticated admin, `callerId` is ctx.user.userId) may not change
their own role UNLESS the requested role is ADMIN — the guard is
`userId === ctx.user.userId && role !== ADMIN`. Then prisma.user.update
sets the role (throwing P2025, modelled as userNotFound, when no such
user exists). -/
def updateUserRole (s : Store) (callerId targetId : Nat) (role : Role) :
    Store × Except AuthError UserRow :=
  if targetId = callerId ∧ role ≠ .ADMIN then (s, .error .selfActionDenied)
  else
    match s.users.find? (fun u => u.id = targetId) with
    | none => (s, .error .userNotFound)
    | some u =>
      let u1 : UserRow := { u with role := role }
      let updated := s.users.map (fun x => if x.id = targetId then u1 else x)
      ({ s with users := updated }, .ok u1)

/-- adminRouter.toggleUserStatus (admin.router.ts lines 119-164): a caller
may never toggle their own account; otherwise flip the target's isActive,
and when the result is inactive also deleteMany all of the target's
Session rows. -/
def toggleUserStatus (s : Store) (callerId targetId : Nat) :
    Store × Except AuthError UserRow :=
  if targetId = callerId then (s, .error .selfActionDenied)
  else
    match s.users.find? (fun u => u.id = targetId) with
    | none => (s, .error .userNotFound)
    | some cur =>
      let u1 : UserRow := { cur with isActive := !cur.isActive }
      let updated := s.users.map (fun x => if x.id = targetId then u1 else x)
      let s1 : Store := { s with users := updated }
      if !u1.isActive then
        let kept := s1.sessions.filter (fun sess => sess.userId ≠ targetId)
        ({ s1 with sessions := kept }, .ok u1)
      else (s1, .ok u1)

/-- adminRouter.deleteUser (admin.router.ts lines 167-185): a caller may
never delete their own account; otherwise prisma.user.delete removes the
row (P2025, modelled as userNotFound, when absent). -/
def deleteUser (s : Store) (callerId targetId : Nat) :
    Store × Except AuthError String :=
  if targetId = callerId then (s, .error .selfActionDenied)
  else
    match s.users.find? (fun u => u.id = targetId) with
    | none => (s, .error .userNotFound)
    | some _ =>
      let kept := s.users.filter (fun u => u.id ≠ targetId)
      ({ s with users := kept }, .ok "User deleted successfully")

/-- The refresh credentials stored in a store's Session rows are pairwise
distinct (the Prisma unique constraint on Session.refreshToken, which
prisma.session.findUnique({ where: { refreshToken } }) relies on). -/
def sessionTokensUnique (s : Store) : Prop :=
  (s.sessions.map (fun sess => sess.refreshToken)).Nodup

instance (s : Store) : Decidable (sessionTokensUnique s) := by
  unfold sessionTokensUnique
  infer_instance

/-- The user emails in a store are pairwise distinct as exact strings (the
Prisma unique constraint on User.email). -/
def userEmailsUnique (s : Store) : Prop :=
  (s.users.map (fun u => u.email)).Nodup

instance (s : Store) : Decidable (userEmailsUnique s) := by
  unfold userEmailsUnique
  infer_instance

/-! Concrete fixtures used by witnesses and counterexamples. -/

/-- A concrete configuration: distinct signing secrets, 900000 ms access
lifetime (15 minutes), 1000 ms refresh JWT lifetime (kept small so expiry
cases are easy to exercise), 5 minute magic-link lifetime. -/
def cfg0 : Config := ⟨"access-secret-key", "refresh-secret-key", 900000, 1000, 5⟩

/-- An active standard user with id 1. -/
def user1 : UserRow := ⟨1, "a@x.com", .USER, true, none, 0⟩

/-- A pending magic link for user1 (back-reference set), expiring at 1000. -/
def link1 : MagicLinkRow := ⟨2, "tok", "a@x.com", 1000, none, some 1⟩

/-- Store for the double-redemption scenario: one user, one pending link. -/
def storeA : Store := ⟨[user1], [link1], [], 3⟩

/-- Store for the expiry-boundary scenario: a link whose expiresAt is 100
and whose usedAt is already set. -/
def storeB : Store := ⟨[user1], [⟨2, "tok", "a@x.com", 100, some 5, some 1⟩], [], 3⟩

/-- An administrator with id 1. -/
def admin1 : UserRow := ⟨1, "admin@x.com", .ADMIN, true, none, 0⟩

/-- Store for the self-action scenario: one administrator. -/
def storeC : Store := ⟨[admin1], [], [], 2⟩

/-- Store for the stale-back-reference scenario: the link's userId is null
(no account existed when the link was requested) but an account with the
link's address exists at redemption time. -/
def storeD : Store := ⟨[user1], [⟨2, "tok", "a@x.com", 1000, none, none⟩], [], 3⟩

/-- The refresh credential initially held by the session in storeE. -/
def jwtE : Jwt := ⟨.refresh 1, "refresh-secret-key", 50⟩

/-- Store for the rotation scenario: one active user owning one session. -/
def storeE : Store := ⟨[user1], [], [⟨5, 1, jwtE, 1000000000⟩], 6⟩

/-- Store for the deactivation scenario: an administrator (id 0), an active
user (id 1), and one session owned by the user. -/
def storeF : Store := ⟨[⟨0, "admin@x.com", .ADMIN, true, none, 0⟩, user1], [],
  [⟨5, 1, jwtE, 1000000000⟩], 6⟩

/-- The refresh credential minted by the first rotation of storeE's session
(performed at time 10 under cfg0). -/
def jwtR1 : Jwt := ⟨.refresh 1, "refresh-secret-key", 1010⟩

/-- The access credential minted by that first rotation. -/
def jwtA1 : Jwt := ⟨.access 1 "a@x.com" .USER, "access-secret-key", 900010⟩

/-- storeE after its session is rotated once at time 10. -/
def storeE1 : Store := ⟨[user1], [], [⟨5, 1, jwtR1, 604800010⟩], 6⟩

/-- The refresh credential minted by the second rotation (at time 20). -/
def jwtR2 : Jwt := ⟨.refresh 1, "refresh-secret-key", 1020⟩

/-- storeE after two rotations (times 10 then 20). -/
def storeE2 : Store := ⟨[user1], [], [⟨5, 1, jwtR2, 604800020⟩], 6⟩

/-- Store for the fresh-account redemption scenario: a pending link whose
back-reference is null and whose address matches no account. -/
def storeG : Store := ⟨[], [⟨2, "tok", "b@x.com", 1000, none, none⟩], [], 3⟩

/-- True exactly on a success result. -/
def resultOk {ε α : Type} : Except ε α → Bool
  | .ok _ => true
  | .error _ => false

/-- ASCII lower-casing of one character, used to state that two addresses
differ only in letter case. -/
def lowerChar (c : Char) : Char :=
  if 'A' ≤ c ∧ c ≤ 'Z' then Char.ofNat (c.toNat + 32) else c

/-! Theorems settling the claims, preceded by shared helper lemmas. -/

theorem redeemCreate_dup (cfg : Config) (s : Store) (ml : MagicLinkRow)
    (now : Nat) (h : (s.users.find? (fun u => u.email = ml.email)).isSome = true) :
    redeemCreate cfg s ml now = (s, .error .uniqueViolation) := by
  simp [redeemCreate, h]

theorem redeemCreate_fresh (cfg : Config) (s : Store) (ml : MagicLinkRow)
    (now : Nat) (h : (s.users.find? (fun u => u.email = ml.email)).isSome = false) :
    redeemCreate cfg s ml now =
      redeemWithUser cfg
        { s with users := s.users ++ [⟨s.nextId, ml.email, .USER, true, none, now⟩],
                 nextId := s.nextId + 1 }
        ml ⟨s.nextId, ml.email, .USER, true, none, now⟩ now := by
  simp [redeemCreate, h]

theorem redeemWithUser_active_users (cfg : Config) (s : Store)
    (ml : MagicLinkRow) (user : UserRow) (now : Nat)
    (h : user.isActive = true) :
    ((redeemWithUser cfg s ml user now).1).users =
      s.users.map (fun u =>
        if u.id = user.id then { u with lastLoginAt := some now } else u) := by
  simp [redeemWithUser, h]

theorem requestMagicLink_users (cfg : Config) (s : Store) (eaddr ft : String)
    (d : Bool) (n : Nat) :
    ((requestMagicLink cfg s eaddr ft d n).1).users = s.users := by
  unfold requestMagicLink
  cases d <;> rfl

theorem jwtVerify_signed (j : Jwt) (key : String) (now : Nat) :
    jwtVerify (.signed j) key now =
      (if j.key = key ∧ now < j.exp then some j.payload else none) := rfl

theorem verifyMagicLink_found (cfg : Config) (s : Store) (tok : String)
    (now : Nat) (ml : MagicLinkRow) (lu : Option UserRow)
    (h : findMagicLink s tok = some (ml, lu)) :
    verifyMagicLink cfg s tok now = redeemRest cfg s ml lu now := by
  simp [verifyMagicLink, h]

theorem refreshTokenOp_no_session (cfg : Config) (s : Store) (t : TokenInput)
    (n : Nat)
    (h : s.sessions.find? (fun sess => TokenInput.signed sess.refreshToken = t) = none) :
    resultOk (refreshTokenOp cfg s t n).2 = false := by
  unfold refreshTokenOp
  cases hv : verifyRefreshToken cfg t n with
  | none => simp [resultOk]
  | some p => simp [h, resultOk]

theorem redeemWithUser_inactive (cfg : Config) (s : Store) (ml : MagicLinkRow)
    (user : UserRow) (now : Nat) (h : user.isActive = false) :
    redeemWithUser cfg s ml user now = (s, .error .accountDeactivated) := by
  simp [redeemWithUser, h]

theorem redeemWithUser_active (cfg : Config) (s : Store) (ml : MagicLinkRow)
    (user : UserRow) (now : Nat) (h : user.isActive = true) :
    (redeemWithUser cfg s ml user now).2 =
      .ok ⟨generateAccessToken cfg user.id user.email user.role now,
           generateRefreshToken cfg user.id now, user.id, user.email,
           user.role, user.isActive, user.createdAt⟩ := by
  simp [redeemWithUser, h]

theorem redeemWithUser_users_ids (cfg : Config) (s : Store)
    (ml : MagicLinkRow) (user : UserRow) (now : Nat) :
    ((redeemWithUser cfg s ml user now).1).users.map (fun u => u.id) =
      s.users.map (fun u => u.id) := by
  unfold redeemWithUser
  by_cases h : user.isActive
  · simp only [h, Bool.not_true, Bool.false_eq_true, if_false, List.map_map]
    apply List.map_congr_left
    intro a _
    by_cases ha : a.id = user.id <;> simp [ha]
  · simp [h]

theorem redeemWithUser_users_emails (cfg : Config) (s : Store)
    (ml : MagicLinkRow) (user : UserRow) (now : Nat) :
    ((redeemWithUser cfg s ml user now).1).users.map (fun u => u.email) =
      s.users.map (fun u => u.email) := by
  unfold redeemWithUser
  by_cases h : user.isActive
  · simp only [h, Bool.not_true, Bool.false_eq_true, if_false, List.map_map]
    apply List.map_congr_left
    intro a _
    by_cases ha : a.id = user.id <;> simp [ha]
  · simp [h]

/-- C1: the spec demands that redemption be exactly-once even under
concurrency, the check-then-set of usedAt being a single atomic store
operation. The code performs a plain findUnique followed by unconditional
writes, so the interleaving in which both requests execute their findUnique
before either performs its writes lets both redemption attempts pass the
usedAt check on their own snapshots: both succeed and two Session rows are
created, violating exactly-once. (Sequentially the property does hold: the
final conjunct shows a second redemption after a completed first one fails
with alreadyUsed.) -/
theorem concurrent_double_redemption_both_succeed :
    findMagicLink storeA "tok" = some (link1, some user1) ∧
    resultOk (redeemRest cfg0 storeA link1 (some user1) 10).2 = true ∧
    resultOk (redeemRest cfg0 (redeemRest cfg0 storeA link1 (some user1) 10).1
      link1 (some user1) 20).2 = true ∧
    ((redeemRest cfg0 (redeemRest cfg0 storeA link1 (some user1) 10).1
      link1 (some user1) 20).1).sessions.length = 2 ∧
    (verifyMagicLink cfg0 (verifyMagicLink cfg0 storeA "tok" 10).1 "tok" 20).2 =
      .error .alreadyUsed := by
  decide

/-- C4 counterexample: at the exact boundary instant expiry = now the code
does not fail with Expired — the check is the strict `magicLink.expiresAt <
new Date()`. In storeB the link has expiresAt = 100 and usedAt set;
redeeming at now = 100 yields alreadyUsed, not the Expired the claim
demands for expiry <= now. -/
theorem expiry_boundary_not_expired :
    (verifyMagicLink cfg0 storeB "tok" 100).2 ≠ .error .expired ∧
    (verifyMagicLink cfg0 storeB "tok" 100).2 = .error .alreadyUsed := by
  decide

/-- C4 (amended): for every found magic link with expiry strictly before
now, redemption fails with Expired regardless of the consumed timestamp —
the expiry check precedes the consumed check. -/
theorem expiry_check_strict (cfg : Config) (s : Store) (tok : String)
    (now : Nat) (ml : MagicLinkRow) (lu : Option UserRow)
    (hfind : findMagicLink s tok = some (ml, lu))
    (hexp : ml.expiresAt < now) :
    (verifyMagicLink cfg s tok now).2 = .error .expired := by
  simp only [verifyMagicLink, hfind, redeemRest, if_pos hexp]

/-- C4 witness: storeB's link (expiresAt 100, usedAt set) redeemed at
now = 101 fails with Expired. -/
theorem expiry_check_strict_witness :
    (verifyMagicLink cfg0 storeB "tok" 101).2 = .error .expired :=
  expiry_check_strict cfg0 storeB "tok" 101
    ⟨2, "tok", "a@x.com", 100, some 5, some 1⟩ (some user1) (by decide) (by decide)

/-- C6: the user-visible response of the link-request operation is the same
literal string whatever the store (so whether or not an account with the
address exists), whatever the address, and whatever the delivery outcome:
delivery failure and account absence are not observable in the response. -/
theorem link_request_anti_enumeration (cfgA cfgB : Config) (sA sB : Store)
    (eA eB ftA ftB : String) (dA dB : Bool) (nA nB : Nat) :
    (requestMagicLink cfgA sA eA ftA dA nA).2 =
      (requestMagicLink cfgB sB eB ftB dB nB).2 := by
  simp only [requestMagicLink]
  cases dA <;> cases dB <;> rfl

/-- C7 counterexample: an administrator CAN issue a self role-change when
the requested role is ADMIN — the guard is userId = caller AND role is not
ADMIN — so the call does not fail with SelfActionDenied for every requested
role: in storeC, admin 1 setting their own role to ADMIN succeeds. -/
theorem self_role_change_to_admin_allowed :
    (updateUserRole storeC 1 1 .ADMIN).2 ≠ .error .selfActionDenied ∧
    (updateUserRole storeC 1 1 .ADMIN).2 = .ok admin1 := by
  decide

/-- C7 (amended): self deactivation and self deletion always fail with
SelfActionDenied, and a self role-change fails with SelfActionDenied
whenever the requested role is not ADMIN (a self role-change to ADMIN, a
no-op, is allowed). -/
theorem admin_self_action_denied (s : Store) (callerId : Nat) (r : Role)
    (hr : r ≠ .ADMIN) :
    (updateUserRole s callerId callerId r).2 = .error .selfActionDenied ∧
    (toggleUserStatus s callerId callerId).2 = .error .selfActionDenied ∧
    (deleteUser s callerId callerId).2 = .error .selfActionDenied := by
  refine ⟨?_, ?_, ?_⟩
  · simp [updateUserRole, hr]
  · simp [toggleUserStatus]
  · simp [deleteUser]

/-- C7 witness: admin 1 demoting themselves to USER, deactivating
themselves, and deleting themselves all fail with SelfActionDenied. -/
theorem admin_self_action_denied_witness :
    (updateUserRole storeC 1 1 .USER).2 = .error .selfActionDenied ∧
    (toggleUserStatus storeC 1 1).2 = .error .selfActionDenied ∧
    (deleteUser storeC 1 1).2 = .error .selfActionDenied :=
  admin_self_action_denied storeC 1 .USER (by decide)

/-- C8 counterexample: redemption does not resolve the account by the
link's contact address. In storeD an account with the link's address
exists but the link's back-reference is null (the account did not exist
when the link was requested); redeeming the valid link does not use the
existing account — it attempts a fresh insert which hits the unique email
constraint, and redemption fails instead of succeeding with the existing
account. -/
theorem redemption_not_by_address :
    (verifyMagicLink cfg0 storeD "tok" 10).2 = .error .uniqueViolation := by
  decide

/-- C9 counterexample: contact addresses are not case-normalized. Starting
from the empty store, requesting and redeeming a link for an upper-cased
address and then for its lower-cased variant yields a reachable store with
two Account rows whose addresses differ only in letter case. -/
theorem case_variant_addresses_reachable :
    (let sA := (requestMagicLink cfg0 ⟨[], [], [], 0⟩ "A@x.com" "t1" true 0).1
     let sB := (verifyMagicLink cfg0 sA "t1" 1).1
     let sC := (requestMagicLink cfg0 sB "a@x.com" "t2" true 2).1
     let sD := (verifyMagicLink cfg0 sC "t2" 3).1
     sD.users.map (fun u => u.email)) = ["A@x.com", "a@x.com"] ∧
    "A@x.com" ≠ "a@x.com" ∧
    "A@x.com".data.map lowerChar = "a@x.com".data.map lowerChar := by
  decide

theorem refreshTokenOp_ok_elim (cfg : Config) (s sOut : Store)
    (t : TokenInput) (a r : Jwt) (n : Nat)
    (h : refreshTokenOp cfg s t n = (sOut, .ok (a, r))) :
    ∃ sess : SessionRow,
      s.sessions.find? (fun x => TokenInput.signed x.refreshToken = t) =
        some sess ∧
      ¬ sess.expiresAt < n ∧
      (∃ user : UserRow,
        s.users.find? (fun x => x.id = sess.userId) = some user ∧
        user.isActive = true ∧
        a = generateAccessToken cfg user.id user.email user.role n ∧
        r = generateRefreshToken cfg user.id n) ∧
      sOut = { s with sessions := s.sessions.map (fun x =>
        if x.id = sess.id then
          { x with refreshToken := r, expiresAt := getRefreshTokenExpiry n }
        else x) } := by
  unfold refreshTokenOp at h
  cases hv : verifyRefreshToken cfg t n with
  | none => rw [hv] at h; exact absurd h (by simp)
  | some p =>
    rw [hv] at h
    cases hf : s.sessions.find? (fun x => TokenInput.signed x.refreshToken = t) with
    | none => rw [hf] at h; exact absurd h (by simp)
    | some sess =>
      rw [hf] at h
      replace h : rotateSession cfg s sess n = (sOut, .ok (a, r)) := h
      refine ⟨sess, rfl, ?_⟩
      unfold rotateSession at h
      by_cases hexp : sess.expiresAt < n
      · rw [if_pos hexp] at h; exact absurd h (by simp)
      · rw [if_neg hexp] at h
        refine ⟨hexp, ?_⟩
        cases hu : s.users.find? (fun x => x.id = sess.userId) with
        | none => rw [hu] at h; exact absurd h (by simp)
        | some user =>
          rw [hu] at h
          replace h : mintRotate cfg s sess user n = (sOut, .ok (a, r)) := h
          unfold mintRotate at h
          by_cases hact : user.isActive
          · rw [if_neg (by simp [hact])] at h
            simp only [Prod.mk.injEq, Except.ok.injEq] at h
            obtain ⟨hs, ha, hr⟩ := h
            exact ⟨⟨user, rfl, hact, ha.symm, hr.symm⟩, by rw [← hs, ← hr]⟩
          · rw [if_pos (by simp [hact])] at h
            exact absurd h (by simp)

theorem refreshTokenOp_ok_ids (cfg : Config) (s sOut : Store)
    (t : TokenInput) (a r : Jwt) (n : Nat)
    (h : refreshTokenOp cfg s t n = (sOut, .ok (a, r))) :
    sOut.sessions.map (fun x => x.id) = s.sessions.map (fun x => x.id) := by
  obtain ⟨sess, -, -, -, hsOut⟩ := refreshTokenOp_ok_elim cfg s sOut t a r n h
  subst hsOut
  simp only [List.map_map]
  apply List.map_congr_left
  intro x _
  by_cases hx : x.id = sess.id <;> simp [hx]

theorem refreshTokenOp_stale (cfg : Config) (s sOut : Store) (t : TokenInput)
    (a r : Jwt) (n n1 : Nat)
    (h : refreshTokenOp cfg s t n = (sOut, .ok (a, r)))
    (huniq : sessionTokensUnique s)
    (hne : TokenInput.signed r ≠ t) :
    resultOk (refreshTokenOp cfg sOut t n1).2 = false := by
  obtain ⟨sess, hfind, -, -, hsOut⟩ := refreshTokenOp_ok_elim cfg s sOut t a r n h
  have hsessmem := List.mem_of_find?_eq_some hfind
  have hsesst : TokenInput.signed sess.refreshToken = t := by
    simpa using List.find?_some hfind
  apply refreshTokenOp_no_session
  subst hsOut
  rw [List.find?_eq_none]
  intro x hx heq
  simp only [List.mem_map] at hx
  obtain ⟨y, hy, hxy⟩ := hx
  have heq2 : TokenInput.signed x.refreshToken = t := of_decide_eq_true heq
  by_cases hid : y.id = sess.id
  · rw [← hxy] at heq2
    simp only [hid, if_true] at heq2
    exact hne heq2
  · rw [← hxy] at heq2
    simp only [hid, if_false] at heq2
    have hrt : y.refreshToken = sess.refreshToken :=
      TokenInput.signed.inj (heq2.trans hsesst.symm)
    have hy_eq : y = sess := List.inj_on_of_nodup_map huniq hy hsessmem hrt
    exact hid (by rw [hy_eq])

theorem refreshSeq_ids (cfg : Config) (times : List Nat) :
    ∀ (s sOut : Store) (t tOut : TokenInput),
      refreshSeq cfg s t times = some (sOut, tOut) →
      sOut.sessions.map (fun x => x.id) = s.sessions.map (fun x => x.id) := by
  induction times with
  | nil =>
    intro s sOut t tOut h
    simp only [refreshSeq, Option.some.injEq, Prod.mk.injEq] at h
    rw [← h.1]
  | cons now rest ih =>
    intro s sOut t tOut h
    unfold refreshSeq at h
    cases hop : refreshTokenOp cfg s t now with
    | mk s1 res =>
      rw [hop] at h
      cases res with
      | error e => exact absurd h (by simp)
      | ok pair =>
        replace h : refreshSeq cfg s1 (.signed pair.2) rest = some (sOut, tOut) := h
        exact (ih s1 sOut (.signed pair.2) tOut h).trans
          (refreshTokenOp_ok_ids cfg s s1 t pair.1 pair.2 now hop)

/-- C2 counterexample: the unguarded stale-credential half of the claim is
false, because jwt.sign is deterministic — the token is a function of the
payload, key, and expiry timestamp alone — so a rotation performed at the
very instant the consumed credential was minted re-mints the identical
credential. storeE1's session holds jwtR1 = generateRefreshToken cfg0 1 10;
rotating with it at time 10 succeeds and mints jwtR1 itself again, and the
supposedly consumed credential jwtR1 then succeeds at the next rotation
instead of failing. -/
theorem rotation_reminted_credential_still_valid :
    (refreshTokenOp cfg0 storeE1 (.signed jwtR1) 10).2 = .ok (jwtA1, jwtR1) ∧
    resultOk (refreshTokenOp cfg0
      (refreshTokenOp cfg0 storeE1 (.signed jwtR1) 10).1
      (.signed jwtR1) 11).2 = true := by
  decide

/-- C2 (amended): after any sequence of N successful refresh calls starting
from one session lineage, the session table holds exactly the same rows by
id as before (each rotation updates the row in place — same id, new
credential, new expiry — and inserts nothing), so one lineage still
occupies exactly one row; and the credential consumed by any successful
rotation k fails the refresh algorithm when presented to the store that
rotation produced (i.e. at rotation k+1) whenever the freshly minted
credential differs from it — as it does whenever the two mints carry
distinct timestamps. When rotation k re-mints an identical credential
(deterministic signing of the same payload at the same timestamp), the
consumed credential remains valid. -/
theorem refresh_rotation_exactly_one_session (cfg : Config) (s sOut : Store)
    (t tOut : TokenInput) (times : List Nat)
    (hseq : refreshSeq cfg s t times = some (sOut, tOut)) :
    sOut.sessions.map (fun x => x.id) = s.sessions.map (fun x => x.id) ∧
    (∀ (sA sB : Store) (tA : TokenInput) (a r : Jwt) (nA nB : Nat),
      refreshTokenOp cfg sA tA nA = (sB, .ok (a, r)) →
      sessionTokensUnique sA →
      TokenInput.signed r ≠ tA →
      resultOk (refreshTokenOp cfg sB tA nB).2 = false) :=
  ⟨refreshSeq_ids cfg times s sOut t tOut hseq,
   fun sA sB tA a r nA nB h hu hne =>
     refreshTokenOp_stale cfg sA sB tA a r nA nB h hu hne⟩

/-- C2 witness: two rotations of storeE's single session (times 10 and 20)
leave exactly the one row with id 5, and the pre-rotation credential jwtE
fails against the store produced by the first rotation. -/
theorem refresh_rotation_exactly_one_session_witness :
    storeE2.sessions.map (fun x => x.id) = storeE.sessions.map (fun x => x.id) ∧
    resultOk (refreshTokenOp cfg0 storeE1 (.signed jwtE) 20).2 = false := by
  have h := refresh_rotation_exactly_one_session cfg0 storeE storeE2
    (.signed jwtE) (.signed jwtR2) [10, 20] (by decide)
  exact ⟨h.1, h.2 storeE storeE1 (.signed jwtE) jwtA1 jwtR1 10 20
    (by decide) (by decide) (by decide)⟩

/-- C3: deactivating an active account through the admin endpoint (the
set_active(id, false) of the spec is toggleUserStatus called on a currently
active target) deletes every Session row owned by that account, and
afterwards any refresh credential whose session belonged to that account
fails the refresh algorithm. -/
theorem deactivation_invalidates_sessions (cfg : Config) (s : Store)
    (callerId uid : Nat) (u : UserRow) (t : TokenInput) (n : Nat)
    (hne : uid ≠ callerId)
    (hfind : s.users.find? (fun x => x.id = uid) = some u)
    (hactive : u.isActive = true)
    (howned : ∀ sess ∈ s.sessions, TokenInput.signed sess.refreshToken = t →
      sess.userId = uid) :
    (∀ sess ∈ ((toggleUserStatus s callerId uid).1).sessions,
      sess.userId ≠ uid) ∧
    resultOk (refreshTokenOp cfg (toggleUserStatus s callerId uid).1 t n).2 =
      false := by
  have hstep : ((toggleUserStatus s callerId uid).1).sessions =
      s.sessions.filter (fun sess => sess.userId ≠ uid) := by
    simp [toggleUserStatus, hne, hfind, hactive]
  constructor
  · intro sess hmem
    rw [hstep] at hmem
    have hmem2 := List.mem_filter.mp hmem
    simpa using hmem2.2
  · apply refreshTokenOp_no_session
    rw [hstep, List.find?_eq_none]
    intro x hx heq
    have hx2 := List.mem_filter.mp hx
    have hxu : x.userId = uid := howned x hx2.1 (of_decide_eq_true heq)
    exact absurd hxu (by simpa using hx2.2)

/-- C3 witness: in storeF, admin 0 deactivates user 1; the user's session
is purged and their previously issued refresh credential jwtE fails. -/
theorem deactivation_invalidates_sessions_witness :
    (∀ sess ∈ ((toggleUserStatus storeF 0 1).1).sessions, sess.userId ≠ 1) ∧
    resultOk (refreshTokenOp cfg0 (toggleUserStatus storeF 0 1).1
      (.signed jwtE) 20).2 = false :=
  deactivation_invalidates_sessions cfg0 storeF 0 1 user1 (.signed jwtE) 20
    (by decide) (by decide) (by decide) (by decide)

/-- C8 (amended): at redemption the account is resolved via the link's
stored back-reference captured at request time, not by a fresh address
lookup. When the back-reference is set, that account is used and no
account row is created; when it is unset, a fresh account with the link's
address, role standard (USER) and active true is created — so redemption
for an address unseen by both the request and the redemption returns that
freshly created account — but if an account with the address appeared
after the link was requested, the create hits the unique constraint and
redemption fails instead of using the existing account. -/
theorem redemption_account_resolution (cfg : Config) (s : Store)
    (tok : String) (now : Nat) (ml : MagicLinkRow) :
    (∀ (u : UserRow) (res : AuthResult),
      findMagicLink s tok = some (ml, some u) →
      (verifyMagicLink cfg s tok now).2 = .ok res →
      res.userId = u.id ∧
      ((verifyMagicLink cfg s tok now).1).users.map (fun x => x.id) =
        s.users.map (fun x => x.id)) ∧
    (findMagicLink s tok = some (ml, none) →
      s.users.find? (fun u => u.email = ml.email) = none →
      ¬ ml.expiresAt < now → ml.usedAt = none →
      (verifyMagicLink cfg s tok now).2 =
        .ok ⟨generateAccessToken cfg s.nextId ml.email .USER now,
             generateRefreshToken cfg s.nextId now, s.nextId, ml.email,
             .USER, true, now⟩ ∧
      (⟨s.nextId, ml.email, .USER, true, some now, now⟩ : UserRow) ∈
        ((verifyMagicLink cfg s tok now).1).users) := by
  constructor
  · intro u res hfind hres
    rw [verifyMagicLink_found cfg s tok now ml (some u) hfind] at hres ⊢
    by_cases h1 : ml.expiresAt < now
    · rw [show redeemRest cfg s ml (some u) now = (s, .error .expired) from by
        simp [redeemRest, h1]] at hres
      exact absurd hres (by simp)
    · by_cases h2 : ml.usedAt.isSome
      · rw [show redeemRest cfg s ml (some u) now = (s, .error .alreadyUsed) from by
          simp [redeemRest, h1, h2]] at hres
        exact absurd hres (by simp)
      · rw [show redeemRest cfg s ml (some u) now = redeemWithUser cfg s ml u now from by
          simp [redeemRest, h1, h2]] at hres ⊢
        by_cases h3 : u.isActive
        · rw [redeemWithUser_active cfg s ml u now h3] at hres
          have hinj := Except.ok.inj hres
          refine ⟨?_, redeemWithUser_users_ids cfg s ml u now⟩
          rw [← hinj]
        · rw [redeemWithUser_inactive cfg s ml u now (by simpa using h3)] at hres
          exact absurd hres (by simp)
  · intro hfind hnouser h1 h2
    rw [verifyMagicLink_found cfg s tok now ml none hfind]
    rw [show redeemRest cfg s ml none now = redeemCreate cfg s ml now from by
      simp [redeemRest, h1, h2]]
    rw [redeemCreate_fresh cfg s ml now (by simp [hnouser])]
    constructor
    · rw [redeemWithUser_active _ _ _ _ _ rfl]
    · rw [redeemWithUser_active_users _ _ _ _ _ rfl]
      apply List.mem_map.mpr
      refine ⟨⟨s.nextId, ml.email, .USER, true, none, now⟩, ?_, by simp⟩
      simp

/-- C8 witness: in storeA the link's back-reference points at user 1, and
redemption succeeds with that account while creating none; in storeG (no
account anywhere for the link's address) redemption creates and returns a
fresh standard active account with id 3 = storeG.nextId. -/
theorem redemption_account_resolution_witness :
    (1 : Nat) = user1.id ∧
    ((verifyMagicLink cfg0 storeA "tok" 10).1).users.map (fun x => x.id) =
      storeA.users.map (fun x => x.id) ∧
    (verifyMagicLink cfg0 storeG "tok" 10).2 =
      .ok ⟨generateAccessToken cfg0 3 "b@x.com" .USER 10,
           generateRefreshToken cfg0 3 10, 3, "b@x.com", .USER, true, 10⟩ ∧
    (⟨3, "b@x.com", .USER, true, some 10, 10⟩ : UserRow) ∈
      ((verifyMagicLink cfg0 storeG "tok" 10).1).users := by
  have h := redemption_account_resolution cfg0 storeA "tok" 10 link1
  have ha := h.1 user1 ⟨jwtA1, jwtR1, 1, "a@x.com", .USER, true, 0⟩
    (by decide) (by decide)
  have h2 := redemption_account_resolution cfg0 storeG "tok" 10
    ⟨2, "tok", "b@x.com", 1000, none, none⟩
  have hb := h2.2 (by decide) (by decide) (by decide) (by decide)
  exact ⟨ha.1, ha.2, hb.1, hb.2⟩

/-- C9 (amended): contact addresses are kept globally unique as exact
(case-sensitive) strings — the operations that insert accounts preserve
the store's unique-email constraint — but no case normalization is
performed anywhere, so addresses differing only in case are distinct. -/
theorem email_uniqueness_preserved (cfg : Config) (s : Store)
    (tok eaddr ft : String) (d : Bool) (now : Nat)
    (h : userEmailsUnique s) :
    userEmailsUnique ((verifyMagicLink cfg s tok now).1) ∧
    userEmailsUnique ((requestMagicLink cfg s eaddr ft d now).1) := by
  constructor
  · cases hf : findMagicLink s tok with
    | none =>
      have hst : (verifyMagicLink cfg s tok now).1 = s := by
        simp [verifyMagicLink, hf]
      rw [hst]; exact h
    | some p =>
      obtain ⟨ml, lu⟩ := p
      rw [verifyMagicLink_found cfg s tok now ml lu hf]
      by_cases h1 : ml.expiresAt < now
      · rw [show redeemRest cfg s ml lu now = (s, .error .expired) from by
          simp [redeemRest, h1]]
        exact h
      · by_cases h2 : ml.usedAt.isSome
        · rw [show redeemRest cfg s ml lu now = (s, .error .alreadyUsed) from by
            simp [redeemRest, h1, h2]]
          exact h
        · cases lu with
          | some u =>
            rw [show redeemRest cfg s ml (some u) now =
                redeemWithUser cfg s ml u now from by simp [redeemRest, h1, h2]]
            unfold userEmailsUnique
            rw [redeemWithUser_users_emails]
            exact h
          | none =>
            rw [show redeemRest cfg s ml none now = redeemCreate cfg s ml now from by
              simp [redeemRest, h1, h2]]
            by_cases h4 : (s.users.find? (fun u => u.email = ml.email)).isSome
            · rw [redeemCreate_dup cfg s ml now h4]; exact h
            · rw [redeemCreate_fresh cfg s ml now (by simpa using h4)]
              unfold userEmailsUnique
              rw [redeemWithUser_users_emails, List.map_append]
              have hfn : s.users.find? (fun u => u.email = ml.email) = none := by
                cases hfind : s.users.find? (fun u => u.email = ml.email) with
                | none => rfl
                | some v => exact absurd (by simp [hfind]) h4
              have hnotin : ml.email ∉ s.users.map (fun u => u.email) := by
                rw [List.find?_eq_none] at hfn
                intro hmem
                obtain ⟨u, hu, hue⟩ := List.mem_map.mp hmem
                exact hfn u hu (by simp [hue])
              rw [List.nodup_append]
              exact ⟨h, List.nodup_singleton _,
                by simpa [List.disjoint_singleton] using hnotin⟩
  · unfold userEmailsUnique
    rw [requestMagicLink_users]
    exact h

/-- C9 witness: uniqueness of exact addresses is preserved across a
redemption in storeA and a link request in storeA. -/
theorem email_uniqueness_preserved_witness :
    userEmailsUnique ((verifyMagicLink cfg0 storeA "tok" 10).1) ∧
    userEmailsUnique ((requestMagicLink cfg0 storeA "c@x.com" "t9" true 10).1) :=
  email_uniqueness_preserved cfg0 storeA "tok" "c@x.com" "t9" true 10 (by decide)

/-- C10: whenever redemption fails with NotFound, Expired, AlreadyUsed, or
AccountDeactivated, the store is returned exactly as it was: in particular
the link's consumed timestamp is not newly set, no Session row is created,
and no account's lastLoginAt is updated. (The one failure mode excluded,
uniqueViolation, is the stale-back-reference race of C8.) -/
theorem redemption_failure_atomic (cfg : Config) (s : Store) (tok : String)
    (now : Nat) (e : AuthError)
    (hres : (verifyMagicLink cfg s tok now).2 = .error e)
    (_he : e = .notFound ∨ e = .expired ∨ e = .alreadyUsed ∨
          e = .accountDeactivated) :
    (verifyMagicLink cfg s tok now).1 = s := by
  unfold verifyMagicLink at hres ⊢
  cases hf : findMagicLink s tok with
  | none => simp [hf]
  | some p =>
    obtain ⟨ml, lu⟩ := p
    rw [hf] at hres
    replace hres : (redeemRest cfg s ml lu now).2 = .error e := hres
    show (redeemRest cfg s ml lu now).1 = s
    unfold redeemRest at hres ⊢
    by_cases h1 : ml.expiresAt < now
    · simp [h1]
    · simp only [h1, if_false] at hres ⊢
      by_cases h2 : ml.usedAt.isSome
      · simp [h2]
      · simp only [h2, Bool.false_eq_true, if_false] at hres ⊢
        cases lu with
        | some u =>
          replace hres : (redeemWithUser cfg s ml u now).2 = .error e := hres
          show (redeemWithUser cfg s ml u now).1 = s
          by_cases h3 : u.isActive
          · rw [redeemWithUser_active cfg s ml u now h3] at hres
            exact absurd hres (by simp)
          · rw [redeemWithUser_inactive cfg s ml u now (by simpa using h3)]
        | none =>
          replace hres : (redeemCreate cfg s ml now).2 = .error e := hres
          show (redeemCreate cfg s ml now).1 = s
          by_cases h4 : (s.users.find? (fun u => u.email = ml.email)).isSome
          · rw [redeemCreate_dup cfg s ml now h4]
          · rw [redeemCreate_fresh cfg s ml now (by simpa using h4)] at hres
            rw [redeemWithUser_active _ _ _ _ _ rfl] at hres
            exact absurd hres (by simp)

/-- C10 witness: a redemption that fails with NotFound (unknown token in
storeA) leaves the store unchanged. -/
theorem redemption_failure_atomic_witness :
    (verifyMagicLink cfg0 storeA "zzz" 10).1 = storeA :=
  redemption_failure_atomic cfg0 storeA "zzz" 10 .notFound (by decide)
    (Or.inl rfl)

/-- C5: the two verify functions are total (they never throw — the
jsonwebtoken exceptions are caught and collapsed to the absence value) and
return none exactly when the input is malformed, signed with the wrong
key, expired, or carries the wrong discriminator tag; a payload is
returned only for a well-signed, unexpired token with the matching tag. -/
theorem verify_never_throws (cfg : Config) (j : Jwt) (str : String)
    (now : Nat) :
    verifyAccessToken cfg (.malformed str) now = none ∧
    verifyRefreshToken cfg (.malformed str) now = none ∧
    verifyAccessToken cfg (.signed j) now =
      (if j.key = cfg.jwtSecret ∧ now < j.exp ∧ j.payload.isAccessType = true
       then some j.payload else none) ∧
    verifyRefreshToken cfg (.signed j) now =
      (if j.key = cfg.jwtRefreshSecret ∧ now < j.exp ∧
          j.payload.isRefreshType = true
       then some j.payload else none) := by
  refine ⟨rfl, rfl, ?_, ?_⟩
  · simp only [verifyAccessToken, jwtVerify_signed]
    by_cases h1 : j.key = cfg.jwtSecret ∧ now < j.exp
    · by_cases h2 : j.payload.isAccessType = true
      · simp [h1, h2, h1.1, h1.2]
      · simp [h1, h2]
    · rw [if_neg h1, if_neg (by tauto)]
  · simp only [verifyRefreshToken, jwtVerify_signed]
    by_cases h1 : j.key = cfg.jwtRefreshSecret ∧ now < j.exp
    · by_cases h2 : j.payload.isRefreshType = true
      · simp [h1, h2, h1.1, h1.2]
      · simp [h1, h2]
    · rw [if_neg h1, if_neg (by tauto)]

end Boilerplate
